import Mathlib

/-!
# appconfig-sample: a shallow embedding of `main.go`

The program resolves three names to AWS AppConfig identifiers, starts a
configuration session and polls the latest configuration forever.  The AWS SDK
is the environment: every SDK entry point the program calls is a field of
`SDK`, and the program is a function of that record.  The observable behaviour
of a run is a trace of events (remote calls, sleeps, lines on standard output)
together with the way the process stands at the end of the observation.
-/

namespace AppConfigSample

/-! ## Values of the Go program -/

/-- Go `error` value that is not nil.  `isAwsErr` tells whether its dynamic type
implements `awserr.Error` (the type assertion of the resolvers), `text` is what
its `Error()` method returns (what `%v` prints). -/
structure GoError where
  isAwsErr : Bool
  text : String
  deriving DecidableEq, Repr

/-- One element of `result.Items`: an `appconfig.Application`,
`appconfig.Environment` or `appconfig.ConfigurationProfile`.  The program reads
the fields `Name` and `Id` only; both are `*string` in the SDK, so either may be
nil (`none`). -/
structure Resource where
  Name : Option String
  Id : Option String
  deriving DecidableEq, Repr

/-- The slice `result.Items`, of type `[]*T`: an element may itself be a nil
pointer (`none`). -/
abbrev Items := List (Option Resource)

mutual
/-- Value of `*credentials.Credentials`: the static credentials of the base session, or
the ones `stscreds.NewCredentials(sess, rolearn)` builds over a session. -/
inductive Credentials where
  | static (id secret token : String)
  | assumeRole (sess : Session) (rolearn : String)
/-- The fields of `aws.Config` the program sets: `Region` (a `*string`) and
`Credentials` (a pointer); the zero value has both nil. -/
inductive Config where
  | mk (Region : Option String) (Creds : Option Credentials)
/-- Value of `session.Session`, with the `Config` field the program reads. -/
inductive Session where
  | mk (Config : Config)
end

/-- Field `Region` of an `aws.Config`. -/
def Config.Region : Config → Option String
  | .mk r _ => r

/-- Field `Config` of a `session.Session`. -/
def Session.Config : Session → Config
  | .mk c => c

/-- Zero value of `aws.Config` (`var config aws.Config`). -/
def Config.zero : Config := .mk none none

/-- Client made by `appconfig.New(sess, &config)`. -/
structure AppConfig where
  sess : Session
  config : Config

/-- Client made by `appconfigdata.New(sess, &config)`. -/
structure AppConfigData where
  sess : Session
  config : Config

/-- The fields of `appconfigdata.GetLatestConfigurationOutput` the API fills:
the token for the next poll and the configuration bytes (`string(bytes)` keeps
the contents, so the payload is held as a string). -/
structure PollOutput where
  NextPollConfigurationToken : Option String
  Configuration : String
  deriving DecidableEq, Repr

/-- The AWS SDK as the program sees it.  Each field is one SDK entry point and
returns what the call returns: `Except.error e` for a non-nil `err`.  The
listing and session calls happen at most once in a run; polls repeat, so
`getLatestConfiguration` also takes the number of polls made before this one,
which lets the service answer each poll differently. -/
structure SDK where
  newSession : Config → Except GoError Session
  listApplications : AppConfig → Except GoError Items
  listEnvironments : AppConfig → String → Except GoError Items
  listConfigurationProfiles : AppConfig → String → Except GoError Items
  startConfigurationSession :
    AppConfigData → String → String → String → Except GoError (Option String)
  getLatestConfiguration : AppConfigData → Nat → String → Except GoError PollOutput

/-! ## The resolvers -/

/-- The loop `for _, a := range items { if *a.Name == name { id = *a.Id } }`
started with `id` holding `acc`.  `none` is a nil-pointer panic: a nil element,
a nil `Name`, or a nil `Id` on an entry whose name matches. -/
def scanItems (name : String) : Items → String → Option String
  | [], acc => some acc
  | none :: _, _ => none
  | some a :: rest, acc =>
    match a.Name with
    | none => none
    | some n =>
      if n = name then
        match a.Id with
        | none => none
        | some i => scanItems name rest i
      else scanItems name rest acc

/-- A resolver's `(string, error)` return value; `none` stands for a panic. -/
abbrev Returned := Option (String × Option GoError)

/-- Source `getApplicationID` (main.go 19-36). -/
def getApplicationID (sdk : SDK) (svc : AppConfig) (appName : String) : Returned :=
  match sdk.listApplications svc with
  | .error err =>
    if err.isAwsErr then some ("", some err) else some ("", some err)
  | .ok items =>
    match scanItems appName items "" with
    | none => none
    | some appID => some (appID, none)

/-- Source `getEnvironmentID` (main.go 38-56). -/
def getEnvironmentID (sdk : SDK) (svc : AppConfig) (appID envName : String) : Returned :=
  match sdk.listEnvironments svc appID with
  | .error err =>
    if err.isAwsErr then some ("", some err) else some ("", some err)
  | .ok items =>
    match scanItems envName items "" with
    | none => none
    | some envID => some (envID, none)

/-- Source `getConfigProfileID` (main.go 58-77). -/
def getConfigProfileID (sdk : SDK) (svc : AppConfig) (appID cpName : String) : Returned :=
  match sdk.listConfigurationProfiles svc appID with
  | .error err =>
    if err.isAwsErr then some ("", some err) else some ("", some err)
  | .ok items =>
    match scanItems cpName items "" with
    | none => none
    | some cpID => some (cpID, none)

/-- Source `getAppconfigDataToken` (main.go 79-90); `none` is the panic of
`*result.InitialConfigurationToken` on a nil token. -/
def getAppconfigDataToken (sdk : SDK) (svc : AppConfigData) (appID envID cpID : String) :
    Returned :=
  match sdk.startConfigurationSession svc appID envID cpID with
  | .error err => some ("", some err)
  | .ok none => none
  | .ok (some tok) => some (tok, none)

/-- Source `switchAccount` (main.go 92-97): the new session (or the error of
`session.NewSession`) and the configuration it was built from. -/
def switchAccount (sdk : SDK) (sess : Session) (rolearn : String) :
    Except GoError Session × Config :=
  let sCreds := Credentials.assumeRole sess rolearn
  let sConfig := Config.mk sess.Config.Region (some sCreds)
  (sdk.newSession sConfig, sConfig)

/-! ## The run of `main` -/

/-- The command-line values after `flag.Parse()` (main.go 100-118). -/
structure Flags where
  awsAccessKeyID : String
  awsSecretAccessKey : String
  region : String
  application : String
  environment : String
  configProfile : String
  switchRole : String
  deriving DecidableEq, Repr

/-- Remote request the program sends, with the client it is sent through and
the request fields the program fills. -/
inductive Call where
  | listApplications (svc : AppConfig)
  | listEnvironments (svc : AppConfig) (ApplicationId : String)
  | listConfigurationProfiles (svc : AppConfig) (ApplicationId : String)
  | startConfigurationSession (svc : AppConfigData)
      (ApplicationIdentifier EnvironmentIdentifier ConfigurationProfileIdentifier : String)
  | getLatestConfiguration (svc : AppConfigData) (ConfigurationToken : String)

/-- Observable step of a run: a remote call, `time.Sleep(1 * time.Second)`, or
text written to standard output by `fmt.Printf`. -/
inductive Event where
  | call (c : Call)
  | sleep
  | print (text : String)

/-- How the process stands when the observation ends: still inside the poll loop,
ended by `log.Fatalf` (the message goes to standard error, exit code 1), or
ended by a Go panic. -/
inductive Status where
  | running
  | fatal (message : String)
  | panic
  deriving DecidableEq, Repr

/-- Observed run: the events in order and the final status. -/
structure Run where
  events : List Event
  status : Status

/-- Run `r` preceded by the events `evs`. -/
def Run.after (evs : List Event) (r : Run) : Run :=
  ⟨evs ++ r.events, r.status⟩

/-- Message of `log.Fatalf("err: %v", err)`. -/
def fatalMessage (err : GoError) : String :=
  "err: " ++ err.text

/-- The configuration of the base session (main.go 120-123). -/
def baseConfig (fl : Flags) : Config :=
  .mk (some fl.region) (some (.static fl.awsAccessKeyID fl.awsSecretAccessKey ""))

/-- Lines 120-132 of main.go: the base session (`session.Must` panics on an
error), replaced by the one of `switchAccount` when a role is given.  Returns
`sess` and `config` as they stand at line 134. -/
def openSession (sdk : SDK) (fl : Flags) : Except Status (Session × Config) :=
  match sdk.newSession (baseConfig fl) with
  | .error _ => .error .panic
  | .ok sess =>
    if fl.switchRole.length > 0 then
      match switchAccount sdk sess fl.switchRole with
      | (.error err, _) => .error (.fatal (fatalMessage err))
      | (.ok sSess, sConfig) => .ok (sSess, sConfig)
    else .ok (sess, Config.zero)

/-- The loop of main.go 163-173, observed for `fuel` iterations; `k` counts the
polls made before.  The variable `token` is read in every iteration and
assigned in none. -/
def pollLoop (sdk : SDK) (dataSvc : AppConfigData) (token : String) (k : Nat) : Nat → Run
  | 0 => ⟨[], .running⟩
  | fuel + 1 =>
    match sdk.getLatestConfiguration dataSvc k token with
    | .error err =>
      ⟨[.sleep, .call (.getLatestConfiguration dataSvc token)], .fatal (fatalMessage err)⟩
    | .ok result =>
      Run.after
        [.sleep, .call (.getLatestConfiguration dataSvc token),
          .print ("config: '" ++ result.Configuration ++ "'\n")]
        (pollLoop sdk dataSvc token (k + 1) fuel)

/-- Source `main` (main.go 99-174) from line 120 on, with the poll loop observed
for `fuel` iterations. -/
def main (sdk : SDK) (fl : Flags) (fuel : Nat) : Run :=
  match openSession sdk fl with
  | .error st => ⟨[], st⟩
  | .ok (sess, config) =>
    let svc : AppConfig := ⟨sess, config⟩
    match getApplicationID sdk svc fl.application with
    | none => ⟨[.call (.listApplications svc)], .panic⟩
    | some (_, some err) => ⟨[.call (.listApplications svc)], .fatal (fatalMessage err)⟩
    | some (appID, none) =>
    match getEnvironmentID sdk svc appID fl.environment with
    | none =>
      ⟨[.call (.listApplications svc), .print ("appID: " ++ appID ++ "\n"),
        .call (.listEnvironments svc appID)], .panic⟩
    | some (_, some err) =>
      ⟨[.call (.listApplications svc), .print ("appID: " ++ appID ++ "\n"),
        .call (.listEnvironments svc appID)], .fatal (fatalMessage err)⟩
    | some (envID, none) =>
    match getConfigProfileID sdk svc appID fl.configProfile with
    | none =>
      ⟨[.call (.listApplications svc), .print ("appID: " ++ appID ++ "\n"),
        .call (.listEnvironments svc appID), .print ("envID: " ++ envID ++ "\n"),
        .call (.listConfigurationProfiles svc appID)], .panic⟩
    | some (_, some err) =>
      ⟨[.call (.listApplications svc), .print ("appID: " ++ appID ++ "\n"),
        .call (.listEnvironments svc appID), .print ("envID: " ++ envID ++ "\n"),
        .call (.listConfigurationProfiles svc appID)], .fatal (fatalMessage err)⟩
    | some (cpID, none) =>
    let dataSvc : AppConfigData := ⟨sess, config⟩
    match getAppconfigDataToken sdk dataSvc appID envID cpID with
    | none =>
      ⟨[.call (.listApplications svc), .print ("appID: " ++ appID ++ "\n"),
        .call (.listEnvironments svc appID), .print ("envID: " ++ envID ++ "\n"),
        .call (.listConfigurationProfiles svc appID),
        .print ("config-profile-id: '" ++ cpID ++ "'\n"),
        .call (.startConfigurationSession dataSvc appID envID cpID)], .panic⟩
    | some (_, some err) =>
      ⟨[.call (.listApplications svc), .print ("appID: " ++ appID ++ "\n"),
        .call (.listEnvironments svc appID), .print ("envID: " ++ envID ++ "\n"),
        .call (.listConfigurationProfiles svc appID),
        .print ("config-profile-id: '" ++ cpID ++ "'\n"),
        .call (.startConfigurationSession dataSvc appID envID cpID)],
        .fatal (fatalMessage err)⟩
    | some (token, none) =>
      Run.after
        [.call (.listApplications svc), .print ("appID: " ++ appID ++ "\n"),
          .call (.listEnvironments svc appID), .print ("envID: " ++ envID ++ "\n"),
          .call (.listConfigurationProfiles svc appID),
          .print ("config-profile-id: '" ++ cpID ++ "'\n"),
          .call (.startConfigurationSession dataSvc appID envID cpID)]
        (pollLoop sdk dataSvc token 0 fuel)

/-- Text written to standard output, in order. -/
def Run.stdout (r : Run) : List String :=
  r.events.filterMap fun
    | .print t => some t
    | _ => none

/-- Remote calls made, in order. -/
def Run.calls (r : Run) : List Call :=
  r.events.filterMap fun
    | .call c => some c
    | _ => none

/-- The scan for `name` dereferences no nil pointer at this entry: the entry is
present, its `Name` is set, and its `Id` is set if it is named `name`. -/
def scannable (name : String) : Option Resource → Bool
  | some ⟨some n, id⟩ => decide (n ≠ name) || id.isSome
  | _ => false

/-- The scan for `name` dereferences no nil pointer in this listing. -/
def Scannable (name : String) (items : Items) : Prop :=
  ∀ x ∈ items, scannable name x = true

instance decidableScannable (name : String) (items : Items) :
    Decidable (Scannable name items) := by
  unfold Scannable
  infer_instance

/-- The entry is present and carries a name and an ID. -/
def hasNameAndId : Option Resource → Bool
  | some ⟨some _, some _⟩ => true
  | _ => false

/-- Every entry of the listing is present and carries a name and an ID (no nil
pointer is dereferenced while scanning it). -/
def Complete (items : Items) : Prop :=
  ∀ x ∈ items, hasNameAndId x = true

instance decidableComplete (items : Items) : Decidable (Complete items) := by
  unfold Complete
  infer_instance

/-! ## Concrete scenarios -/

/-- Listing with a repeated name: `prod` is first and last. -/
def repeatedItems : Items :=
  [some ⟨some "prod", some "a1"⟩, some ⟨some "dev", some "a2"⟩, some ⟨some "prod", some "a3"⟩]

/-- Listing whose only name differs from `prod` in letter case. -/
def capitalItems : Items :=
  [some ⟨some "Prod", some "a1"⟩]

/-- The error a failing call returns in the scenarios. -/
def badRequest : GoError := ⟨true, "BadRequestException: bad request"⟩

/-- Error that is not an `awserr.Error`. -/
def plainError : GoError := ⟨false, "dial tcp: connection refused"⟩

/-- Client over the session of a zero configuration. -/
def zeroClient : AppConfig := ⟨.mk Config.zero, Config.zero⟩

/-- SDK whose three listings all return `items` and whose other calls fail. -/
def listingSDK (items : Items) : SDK where
  newSession := fun c => .ok (.mk c)
  listApplications := fun _ => .ok items
  listEnvironments := fun _ _ => .ok items
  listConfigurationProfiles := fun _ _ => .ok items
  startConfigurationSession := fun _ _ _ _ => .error badRequest
  getLatestConfiguration := fun _ _ _ => .error badRequest

/-- SDK whose three listings all fail with `e`. -/
def failingSDK (e : GoError) : SDK where
  newSession := fun c => .ok (.mk c)
  listApplications := fun _ => .error e
  listEnvironments := fun _ _ => .error e
  listConfigurationProfiles := fun _ _ => .error e
  startConfigurationSession := fun _ _ _ _ => .error e
  getLatestConfiguration := fun _ _ _ => .error e

/-- The flags of the end-to-end scenario: names `prod`, `live`, `main`, no role. -/
def demoFlags : Flags :=
  ⟨"AKIAEXAMPLE", "secret", "eu-west-1", "prod", "live", "main", ""⟩

/-- The flags of the end-to-end scenario with a role to assume. -/
def roleFlags : Flags :=
  ⟨"AKIAEXAMPLE", "secret", "eu-west-1", "prod", "live", "main",
    "arn:aws:iam::123456789012:role/reader"⟩

/-- The service of the end-to-end scenario: one application `prod` with ID `a1`;
under `a1` one environment `live` with ID `e1` and one profile `main` with ID
`c1`; a session for `(a1, e1, c1)` starts with token `tok-0`; polls answer as
`poll` says.  A session keeps the configuration it is made from. -/
def demoSDK (poll : Nat → String → Except GoError PollOutput) : SDK where
  newSession := fun c => .ok (.mk c)
  listApplications := fun _ => .ok [some ⟨some "prod", some "a1"⟩]
  listEnvironments := fun _ a =>
    if a = "a1" then .ok [some ⟨some "live", some "e1"⟩] else .error badRequest
  listConfigurationProfiles := fun _ a =>
    if a = "a1" then .ok [some ⟨some "main", some "c1"⟩] else .error badRequest
  startConfigurationSession := fun _ a e c =>
    if a = "a1" ∧ e = "e1" ∧ c = "c1" then .ok (some "tok-0") else .error badRequest
  getLatestConfiguration := fun _ k tok => poll k tok

/-- Polls of a service that holds tokens to single use: poll number `k` is
answered only when it carries the token the previous answer handed out
(`tok-0` from session start, then `tok-1`, then `tok-2`). -/
def strictPoll : Nat → String → Except GoError PollOutput
  | 0, tok => if tok = "tok-0" then .ok ⟨some "tok-1", "v=1"⟩ else .error badRequest
  | 1, tok => if tok = "tok-1" then .ok ⟨some "tok-2", "v=2"⟩ else .error badRequest
  | _, tok => if tok = "tok-2" then .ok ⟨some "tok-2", ""⟩ else .error badRequest

/-- Polls of a service that answers whatever token it is sent: `v=1`, then an
empty payload, then an error. -/
def lenientPoll : Nat → String → Except GoError PollOutput
  | 0, _ => .ok ⟨some "tok-1", "v=1"⟩
  | 1, _ => .ok ⟨some "tok-2", ""⟩
  | _, _ => .error badRequest

/-- The client of the scenario run without a role: base session, zero `config`. -/
def demoData : AppConfigData := ⟨.mk (baseConfig demoFlags), Config.zero⟩

/-- The listing client of the scenario run without a role. -/
def demoSvc : AppConfig := ⟨.mk (baseConfig demoFlags), Config.zero⟩

/-- The session `switchAccount` makes in the scenario run with a role. -/
def roleConfig : Config :=
  .mk (some "eu-west-1")
    (some (.assumeRole (.mk (baseConfig roleFlags)) "arn:aws:iam::123456789012:role/reader"))

/-- The listing client of the scenario run with a role. -/
def roleSvc : AppConfig := ⟨.mk roleConfig, roleConfig⟩

/-- The data client of the scenario run with a role. -/
def roleData : AppConfigData := ⟨.mk roleConfig, roleConfig⟩

/-- The service of the end-to-end scenario with one stage failing: `0` the
application listing, `1` the environment listing, `2` the profile listing, `3`
session start; any other number leaves the four intact and the third poll
fails. -/
def failAt (stage : Nat) : SDK where
  newSession := fun c => .ok (.mk c)
  listApplications := fun _ =>
    if stage = 0 then .error badRequest else .ok [some ⟨some "prod", some "a1"⟩]
  listEnvironments := fun _ a =>
    if stage = 1 then .error badRequest
    else if a = "a1" then .ok [some ⟨some "live", some "e1"⟩] else .error plainError
  listConfigurationProfiles := fun _ a =>
    if stage = 2 then .error badRequest
    else if a = "a1" then .ok [some ⟨some "main", some "c1"⟩] else .error plainError
  startConfigurationSession := fun _ a e c =>
    if stage = 3 then .error badRequest
    else if a = "a1" ∧ e = "e1" ∧ c = "c1" then .ok (some "tok-0") else .error plainError
  getLatestConfiguration := fun _ k tok => lenientPoll k tok

/-- The answers of the two polls `lenientPoll` answers. -/
def lenientAnswers (j : Nat) : PollOutput :=
  if j = 0 then ⟨some "tok-1", "v=1"⟩ else ⟨some "tok-2", ""⟩

/-! ## Describing traces -/

/-- Session a call is sent through. -/
def Call.sess : Call → Session
  | .listApplications svc => svc.sess
  | .listEnvironments svc _ => svc.sess
  | .listConfigurationProfiles svc _ => svc.sess
  | .startConfigurationSession svc _ _ _ => svc.sess
  | .getLatestConfiguration svc _ => svc.sess

/-- Configuration of the client a call is sent through. -/
def Call.config : Call → Config
  | .listApplications svc => svc.config
  | .listEnvironments svc _ => svc.config
  | .listConfigurationProfiles svc _ => svc.config
  | .startConfigurationSession svc _ _ _ => svc.config
  | .getLatestConfiguration svc _ => svc.config

/-- The line the loop prints for a payload. -/
def configLine (payload : String) : String :=
  "config: '" ++ payload ++ "'\n"

/-- Events of `n` successful iterations of the loop, the poll numbered `k + j`
answered by `p (k + j)`. -/
def okPolls (dataSvc : AppConfigData) (token : String) (p : Nat → PollOutput) (k : Nat) :
    Nat → List Event
  | 0 => []
  | n + 1 =>
    [.sleep, .call (.getLatestConfiguration dataSvc token),
      .print (configLine (p k).Configuration)] ++ okPolls dataSvc token p (k + 1) n

/-- Events of a run up to the start of the loop, when every stage succeeds. -/
def startupEvents (svc : AppConfig) (dataSvc : AppConfigData) (appID envID cpID : String) :
    List Event :=
  [.call (.listApplications svc), .print ("appID: " ++ appID ++ "\n"),
    .call (.listEnvironments svc appID), .print ("envID: " ++ envID ++ "\n"),
    .call (.listConfigurationProfiles svc appID),
    .print ("config-profile-id: '" ++ cpID ++ "'\n"),
    .call (.startConfigurationSession dataSvc appID envID cpID)]

/-- The run reaches the poll loop: the sessions are made, the three names
resolve without error to `appID`, `envID`, `cpID`, and session start returns
`token`. -/
def EntersLoop (sdk : SDK) (fl : Flags) (sess : Session) (config : Config)
    (appID envID cpID token : String) : Prop :=
  openSession sdk fl = .ok (sess, config) ∧
  getApplicationID sdk ⟨sess, config⟩ fl.application = some (appID, none) ∧
  getEnvironmentID sdk ⟨sess, config⟩ appID fl.environment = some (envID, none) ∧
  getConfigProfileID sdk ⟨sess, config⟩ appID fl.configProfile = some (cpID, none) ∧
  getAppconfigDataToken sdk ⟨sess, config⟩ appID envID cpID = some (token, none)

/-- The answer to poll `j`, or an empty one where the poll fails. -/
def answerOf (sdk : SDK) (d : AppConfigData) (t : String) (j : Nat) : PollOutput :=
  match sdk.getLatestConfiguration d j t with
  | .ok r => r
  | .error _ => ⟨none, ""⟩

/-- No response of the SDK holds a nil pointer the program would dereference:
every listing is complete and a started session comes with its token. -/
def SDK.NoNil (sdk : SDK) : Prop :=
  (∀ svc items, sdk.listApplications svc = .ok items → Complete items) ∧
  (∀ svc a items, sdk.listEnvironments svc a = .ok items → Complete items) ∧
  (∀ svc a items, sdk.listConfigurationProfiles svc a = .ok items → Complete items) ∧
  (∀ svc a e c, sdk.startConfigurationSession svc a e c ≠ .ok none)

/-- The SDK answers the call with the error `e` (for a poll: at some point of the
run). -/
def SDK.failsWith (sdk : SDK) (e : GoError) : Call → Prop
  | .listApplications svc => sdk.listApplications svc = .error e
  | .listEnvironments svc a => sdk.listEnvironments svc a = .error e
  | .listConfigurationProfiles svc a => sdk.listConfigurationProfiles svc a = .error e
  | .startConfigurationSession svc a en c =>
    sdk.startConfigurationSession svc a en c = .error e
  | .getLatestConfiguration svc tok => ∃ k, sdk.getLatestConfiguration svc k tok = .error e

/-! ## Scanning a listing -/

theorem hasNameAndId_iff (x : Option Resource) :
    hasNameAndId x = true ↔ ∃ n i, x = some ⟨some n, some i⟩ := by
  rcases x with _ | ⟨_ | n, _ | i⟩ <;> simp [hasNameAndId]

theorem scannable_iff (name : String) (x : Option Resource) :
    scannable name x = true ↔
      ∃ n id, x = some ⟨some n, id⟩ ∧ (n = name → ∃ i, id = some i) := by
  match x with
  | none => simp [scannable]
  | some ⟨none, _⟩ => simp [scannable]
  | some ⟨some n, none⟩ =>
    simp only [scannable, Option.isSome_none, Bool.or_false, decide_eq_true_eq]
    constructor
    · intro h
      exact ⟨n, none, rfl, fun hn => absurd hn h⟩
    · rintro ⟨m, id, hx, hid⟩ hn
      simp only [Option.some.injEq, Resource.mk.injEq] at hx
      obtain ⟨rfl, rfl⟩ := hx
      obtain ⟨i, hi⟩ := hid hn
      cases hi
  | some ⟨some n, some i⟩ =>
    simp only [scannable, Option.isSome_some, Bool.or_true, true_iff]
    exact ⟨n, some i, rfl, fun _ => ⟨i, rfl⟩⟩

theorem complete_scannable (name : String) {l : Items} (h : Complete l) :
    Scannable name l := by
  intro x hx
  obtain ⟨n, i, rfl⟩ := (hasNameAndId_iff x).mp (h x hx)
  simp [scannable]

theorem scannable_cons {name : String} {x : Option Resource} {l : Items}
    (h : Scannable name (x :: l)) :
    (∃ n id, x = some ⟨some n, id⟩ ∧ (n = name → ∃ i, id = some i)) ∧ Scannable name l :=
  ⟨(scannable_iff name x).mp (h x (List.mem_cons_self x l)),
    fun y hy => h y (List.mem_cons_of_mem x hy)⟩

theorem scannable_append {name : String} {l₁ l₂ : Items} (h : Scannable name (l₁ ++ l₂)) :
    Scannable name l₁ ∧ Scannable name l₂ :=
  ⟨fun y hy => h y (List.mem_append_left l₂ hy), fun y hy => h y (List.mem_append_right l₁ hy)⟩

/-- Scanning entries none of which is named `name` leaves the ID as it was. -/
theorem scanItems_no_match (name : String) (l : Items) (acc : String)
    (hc : Scannable name l) (hn : ∀ q, some q ∈ l → q.Name ≠ some name) :
    scanItems name l acc = some acc := by
  induction l with
  | nil => rfl
  | cons x l ih =>
    obtain ⟨⟨n, id, rfl, _⟩, hl⟩ := scannable_cons hc
    have hne : n ≠ name := by
      intro h
      exact hn ⟨some n, id⟩ (List.mem_cons_self _ _) (by rw [h])
    have ih' := ih hl (fun q hq => hn q (List.mem_cons_of_mem _ hq))
    simp [scanItems, hne, ih']

/-- Scanning a run of entries without a nil pointer in the way never panics:
what follows is scanned with some ID in hand. -/
theorem scanItems_append (name : String) (pre l : Items) (acc : String)
    (hc : Scannable name pre) :
    ∃ acc', scanItems name (pre ++ l) acc = scanItems name l acc' := by
  induction pre generalizing acc with
  | nil => exact ⟨acc, rfl⟩
  | cons x pre ih =>
    obtain ⟨⟨n, id, rfl, hid⟩, hl⟩ := scannable_cons hc
    by_cases h : n = name
    · obtain ⟨i, rfl⟩ := hid h
      obtain ⟨acc', h'⟩ := ih i hl
      exact ⟨acc', by simp [scanItems, h, h']⟩
    · obtain ⟨acc', h'⟩ := ih acc hl
      exact ⟨acc', by simp [scanItems, h, h']⟩

/-- The scan returns the ID of an entry named `name` that no entry named `name`
follows. -/
theorem scanItems_last (name id : String) (pre post : Items) (r : Resource)
    (hpre : Scannable name pre) (hpost : Scannable name post)
    (hname : r.Name = some name) (hid : r.Id = some id)
    (hn : ∀ q, some q ∈ post → q.Name ≠ some name) :
    scanItems name (pre ++ some r :: post) "" = some id := by
  obtain ⟨acc', h'⟩ := scanItems_append name pre (some r :: post) "" hpre
  rw [h']
  simp [scanItems, hname, hid, scanItems_no_match name post id hpost hn]

/-- A listing with an entry named `name` splits at the last such entry. -/
theorem exists_last_named (name : String) (items : Items)
    (hm : ∃ r, some r ∈ items ∧ r.Name = some name) :
    ∃ pre r post, items = pre ++ some r :: post ∧ r.Name = some name ∧
      ∀ q, some q ∈ post → q.Name ≠ some name := by
  induction items with
  | nil =>
    obtain ⟨r, hr, _⟩ := hm
    cases hr
  | cons x l ih =>
    by_cases hl : ∃ r, some r ∈ l ∧ r.Name = some name
    · obtain ⟨pre, r, post, he, hr, hp⟩ := ih hl
      exact ⟨x :: pre, r, post, by rw [he]; rfl, hr, hp⟩
    · obtain ⟨r, hr, hrn⟩ := hm
      rcases List.mem_cons.mp hr with h | h
      · exact ⟨[], r, l, by rw [h]; rfl, hrn, fun q hq hqn => hl ⟨q, hq, hqn⟩⟩
      · exact absurd ⟨r, h, hrn⟩ hl

/-! ## The resolvers: claims C1, C2, C3 -/

/-- C1: when the listing call succeeds with a listing in which the scan meets no
nil pointer (every entry is present and has a name, and the entries named as
the target have an ID) and at least one entry is named exactly as the target, each of the three resolvers
returns, with no error, the ID of the last entry so named: the listing splits
into `pre`, an entry `r` named as the target with ID `id`, and `post` holding
no entry of that name, and the resolver returns `(id, nil)`. -/
theorem resolvers_return_last_match (sdk : SDK) (svc : AppConfig) (appID name : String)
    (items : Items) (hc : Scannable name items)
    (hm : ∃ r, some r ∈ items ∧ r.Name = some name) :
    ∃ pre r post id, items = pre ++ some r :: post ∧ r.Name = some name ∧ r.Id = some id ∧
      (∀ q, some q ∈ post → q.Name ≠ some name) ∧
      (sdk.listApplications svc = .ok items →
        getApplicationID sdk svc name = some (id, none)) ∧
      (sdk.listEnvironments svc appID = .ok items →
        getEnvironmentID sdk svc appID name = some (id, none)) ∧
      (sdk.listConfigurationProfiles svc appID = .ok items →
        getConfigProfileID sdk svc appID name = some (id, none)) := by
  obtain ⟨pre, r, post, he, hr, hp⟩ := exists_last_named name items hm
  subst he
  obtain ⟨hpre, hrest⟩ := scannable_append hc
  obtain ⟨⟨n, rid, hx, hrid⟩, hpost⟩ := scannable_cons hrest
  obtain ⟨id, hid⟩ : ∃ id, r.Id = some id := by
    cases hx
    exact hrid (by simpa using hr)
  have hscan := scanItems_last name id pre post r hpre hpost hr hid hp
  refine ⟨pre, r, post, id, rfl, hr, hid, hp, ?_, ?_, ?_⟩
  · intro h
    simp [getApplicationID, h, hscan]
  · intro h
    simp [getEnvironmentID, h, hscan]
  · intro h
    simp [getConfigProfileID, h, hscan]

/-- C1 at a listing where `prod` occurs first and last: the three resolvers
return the ID of the last occurrence, `a3`. -/
theorem resolvers_return_last_match_witness :
    (∃ pre r post id, repeatedItems = pre ++ some r :: post ∧ r.Name = some "prod" ∧
      r.Id = some id ∧
      (∀ q, some q ∈ post → q.Name ≠ some "prod") ∧
      ((listingSDK repeatedItems).listApplications zeroClient = .ok repeatedItems →
        getApplicationID (listingSDK repeatedItems) zeroClient "prod" = some (id, none)) ∧
      ((listingSDK repeatedItems).listEnvironments zeroClient "a3" = .ok repeatedItems →
        getEnvironmentID (listingSDK repeatedItems) zeroClient "a3" "prod"
          = some (id, none)) ∧
      ((listingSDK repeatedItems).listConfigurationProfiles zeroClient "a3"
          = .ok repeatedItems →
        getConfigProfileID (listingSDK repeatedItems) zeroClient "a3" "prod"
          = some (id, none))) ∧
    getApplicationID (listingSDK repeatedItems) zeroClient "prod" = some ("a3", none) ∧
    getEnvironmentID (listingSDK repeatedItems) zeroClient "a3" "prod" = some ("a3", none) ∧
    getConfigProfileID (listingSDK repeatedItems) zeroClient "a3" "prod"
      = some ("a3", none) :=
  ⟨resolvers_return_last_match (listingSDK repeatedItems) zeroClient "a3" "prod"
      repeatedItems
      (by decide)
      ⟨⟨some "prod", some "a1"⟩, by simp [repeatedItems], rfl⟩,
    by decide, by decide, by decide⟩

/-- C2: when the listing call succeeds with a listing whose entries are all
present and named, none of them exactly as the target (the empty listing
included), each of
the three resolvers returns the empty string and no error. -/
theorem resolvers_no_match_empty (sdk : SDK) (svc : AppConfig) (appID name : String)
    (items : Items) (hc : Scannable name items)
    (hn : ∀ r, some r ∈ items → r.Name ≠ some name) :
    (sdk.listApplications svc = .ok items →
      getApplicationID sdk svc name = some ("", none)) ∧
    (sdk.listEnvironments svc appID = .ok items →
      getEnvironmentID sdk svc appID name = some ("", none)) ∧
    (sdk.listConfigurationProfiles svc appID = .ok items →
      getConfigProfileID sdk svc appID name = some ("", none)) := by
  have hscan := scanItems_no_match name items "" hc hn
  refine ⟨?_, ?_, ?_⟩
  · intro h
    simp [getApplicationID, h, hscan]
  · intro h
    simp [getEnvironmentID, h, hscan]
  · intro h
    simp [getConfigProfileID, h, hscan]

/-- C2 at a listing whose only name is `Prod`, looked up as `prod`, and at the
empty listing. -/
theorem resolvers_no_match_empty_witness :
    (((listingSDK capitalItems).listApplications zeroClient = .ok capitalItems →
      getApplicationID (listingSDK capitalItems) zeroClient "prod" = some ("", none)) ∧
    ((listingSDK capitalItems).listEnvironments zeroClient "a1" = .ok capitalItems →
      getEnvironmentID (listingSDK capitalItems) zeroClient "a1" "prod" = some ("", none)) ∧
    ((listingSDK capitalItems).listConfigurationProfiles zeroClient "a1" = .ok capitalItems →
      getConfigProfileID (listingSDK capitalItems) zeroClient "a1" "prod"
        = some ("", none))) ∧
    getApplicationID (listingSDK capitalItems) zeroClient "prod" = some ("", none) ∧
    getEnvironmentID (listingSDK capitalItems) zeroClient "a1" "prod" = some ("", none) ∧
    getConfigProfileID (listingSDK capitalItems) zeroClient "a1" "prod" = some ("", none) ∧
    getApplicationID (listingSDK []) zeroClient "prod" = some ("", none) ∧
    getEnvironmentID (listingSDK []) zeroClient "a1" "prod" = some ("", none) ∧
    getConfigProfileID (listingSDK []) zeroClient "a1" "prod" = some ("", none) :=
  ⟨resolvers_no_match_empty (listingSDK capitalItems) zeroClient "a1" "prod" capitalItems
    (by decide)
    (by
      intro r hr
      simp only [capitalItems, List.mem_singleton, Option.some.injEq] at hr
      subst hr
      decide),
    by decide, by decide, by decide, by decide, by decide, by decide⟩

/-- C3: each of the three resolvers returns a non-nil error exactly when its
listing call returned one; the error returned is the listing call's error,
whether or not it is an `awserr.Error`, and the ID returned with it is the
empty string. -/
theorem resolvers_error_iff_listing_error (sdk : SDK) (svc : AppConfig)
    (appID name id : String) (e : GoError) :
    (getApplicationID sdk svc name = some (id, some e) ↔
      sdk.listApplications svc = .error e ∧ id = "") ∧
    (getEnvironmentID sdk svc appID name = some (id, some e) ↔
      sdk.listEnvironments svc appID = .error e ∧ id = "") ∧
    (getConfigProfileID sdk svc appID name = some (id, some e) ↔
      sdk.listConfigurationProfiles svc appID = .error e ∧ id = "") := by
  refine ⟨?_, ?_, ?_⟩
  · unfold getApplicationID
    cases h : sdk.listApplications svc with
    | error err => simp only [ite_self, Option.some.injEq, Prod.mk.injEq, Except.error.injEq]
                   constructor
                   · rintro ⟨h1, h2⟩
                     exact ⟨h2, h1.symm⟩
                   · rintro ⟨h1, h2⟩
                     exact ⟨h2.symm, h1⟩
    | ok items => dsimp only
                  split <;> simp
  · unfold getEnvironmentID
    cases h : sdk.listEnvironments svc appID with
    | error err => simp only [ite_self, Option.some.injEq, Prod.mk.injEq, Except.error.injEq]
                   constructor
                   · rintro ⟨h1, h2⟩
                     exact ⟨h2, h1.symm⟩
                   · rintro ⟨h1, h2⟩
                     exact ⟨h2.symm, h1⟩
    | ok items => dsimp only
                  split <;> simp
  · unfold getConfigProfileID
    cases h : sdk.listConfigurationProfiles svc appID with
    | error err => simp only [ite_self, Option.some.injEq, Prod.mk.injEq, Except.error.injEq]
                   constructor
                   · rintro ⟨h1, h2⟩
                     exact ⟨h2, h1.symm⟩
                   · rintro ⟨h1, h2⟩
                     exact ⟨h2.symm, h1⟩
    | ok items => dsimp only
                  split <;> simp

/-- C3 at listings that fail with an `awserr.Error` and with a plain error: the
resolvers hand the same error back with an empty ID. -/
theorem resolvers_error_iff_listing_error_witness :
    getApplicationID (failingSDK badRequest) zeroClient "prod" = some ("", some badRequest) ∧
    getEnvironmentID (failingSDK plainError) zeroClient "a1" "live"
      = some ("", some plainError) ∧
    getConfigProfileID (failingSDK plainError) zeroClient "a1" "main"
      = some ("", some plainError) :=
  ⟨(resolvers_error_iff_listing_error (failingSDK badRequest) zeroClient "a1" "prod" ""
      badRequest).1.mpr ⟨rfl, rfl⟩,
    (resolvers_error_iff_listing_error (failingSDK plainError) zeroClient "a1" "live" ""
      plainError).2.1.mpr ⟨rfl, rfl⟩,
    (resolvers_error_iff_listing_error (failingSDK plainError) zeroClient "a1" "main" ""
      plainError).2.2.mpr ⟨rfl, rfl⟩⟩

/-! ## The poll loop -/

theorem pollLoop_ok (sdk : SDK) (d : AppConfigData) (t : String) (p : Nat → PollOutput) :
    ∀ n k, (∀ j, j < n → sdk.getLatestConfiguration d (k + j) t = .ok (p (k + j))) →
      pollLoop sdk d t k n = ⟨okPolls d t p k n, .running⟩ := by
  intro n
  induction n with
  | zero => intro k _; rfl
  | succ n ih =>
    intro k h
    have h0 : sdk.getLatestConfiguration d k t = .ok (p k) := by
      simpa using h 0 (Nat.succ_pos n)
    have hrest : ∀ j, j < n →
        sdk.getLatestConfiguration d (k + 1 + j) t = .ok (p (k + 1 + j)) := by
      intro j hj
      have := h (j + 1) (Nat.succ_lt_succ hj)
      rwa [show k + (j + 1) = k + 1 + j by omega] at this
    simp [pollLoop, h0, ih (k + 1) hrest, Run.after, okPolls, configLine]

theorem pollLoop_fail (sdk : SDK) (d : AppConfigData) (t : String) (p : Nat → PollOutput)
    (e : GoError) :
    ∀ m k, (∀ j, j < m → sdk.getLatestConfiguration d (k + j) t = .ok (p (k + j))) →
      sdk.getLatestConfiguration d (k + m) t = .error e →
      ∀ fuel, m < fuel →
        pollLoop sdk d t k fuel =
          ⟨okPolls d t p k m ++ [.sleep, .call (.getLatestConfiguration d t)],
            .fatal (fatalMessage e)⟩ := by
  intro m
  induction m with
  | zero =>
    intro k _ he fuel hf
    obtain ⟨f, rfl⟩ : ∃ f, fuel = f + 1 := ⟨fuel - 1, by omega⟩
    simp [pollLoop, (by simpa using he : sdk.getLatestConfiguration d k t = .error e),
      okPolls]
  | succ m ih =>
    intro k h he fuel hf
    obtain ⟨f, rfl⟩ : ∃ f, fuel = f + 1 := ⟨fuel - 1, by omega⟩
    have h0 : sdk.getLatestConfiguration d k t = .ok (p k) := by
      simpa using h 0 (Nat.succ_pos m)
    have hrest : ∀ j, j < m →
        sdk.getLatestConfiguration d (k + 1 + j) t = .ok (p (k + 1 + j)) := by
      intro j hj
      have := h (j + 1) (Nat.succ_lt_succ hj)
      rwa [show k + (j + 1) = k + 1 + j by omega] at this
    have he' : sdk.getLatestConfiguration d (k + 1 + m) t = .error e := by
      rwa [show k + (m + 1) = k + 1 + m by omega] at he
    simp [pollLoop, h0, ih (k + 1) hrest he' f (by omega), Run.after, okPolls, configLine]

/-- The loop is still running after `n` iterations exactly when the first `n`
polls were all answered without error. -/
theorem pollLoop_running_iff (sdk : SDK) (d : AppConfigData) (t : String) :
    ∀ n k, (pollLoop sdk d t k n).status = .running ↔
      ∀ j, j < n → ∃ r, sdk.getLatestConfiguration d (k + j) t = .ok r := by
  intro n
  induction n with
  | zero => intro k; simp [pollLoop]
  | succ n ih =>
    intro k
    cases h0 : sdk.getLatestConfiguration d k t with
    | error e =>
      simp only [pollLoop, h0]
      constructor
      · intro h
        cases h
      · intro h
        obtain ⟨r, hr⟩ := h 0 (Nat.succ_pos n)
        rw [Nat.add_zero, h0] at hr
        cases hr
    | ok r =>
      simp only [pollLoop, h0, Run.after, ih (k + 1)]
      constructor
      · intro h j hj
        cases j with
        | zero => exact ⟨r, h0⟩
        | succ j =>
          obtain ⟨r', hr'⟩ := h j (Nat.lt_of_succ_lt_succ hj)
          exact ⟨r', by rwa [show k + (j + 1) = k + 1 + j by omega]⟩
      · intro h j hj
        obtain ⟨r', hr'⟩ := h (j + 1) (Nat.succ_lt_succ hj)
        exact ⟨r', by rwa [show k + 1 + j = k + (j + 1) by omega]⟩

/-- Every call the loop makes is a poll through the same client with the token
the loop was entered with. -/
theorem pollLoop_calls (sdk : SDK) (d : AppConfigData) (t : String) :
    ∀ n k, ∀ c ∈ (pollLoop sdk d t k n).calls, c = .getLatestConfiguration d t := by
  intro n
  induction n with
  | zero => intro k c hc; simp [pollLoop, Run.calls] at hc
  | succ n ih =>
    intro k c hc
    cases h0 : sdk.getLatestConfiguration d k t with
    | error e =>
      simp [pollLoop, h0, Run.calls] at hc
      exact hc
    | ok r =>
      simp only [pollLoop, h0, Run.after, Run.calls, List.cons_append, List.nil_append,
        List.filterMap_cons, List.mem_cons] at hc
      rcases hc with hc | hc
      · exact hc
      · exact ih (k + 1) c hc

theorem okPolls_succ (d : AppConfigData) (t : String) (p : Nat → PollOutput) :
    ∀ n k, okPolls d t p k (n + 1) =
      okPolls d t p k n ++
        [.sleep, .call (.getLatestConfiguration d t),
          .print (configLine (p (k + n)).Configuration)] := by
  intro n
  induction n with
  | zero => intro k; simp [okPolls]
  | succ n ih =>
    intro k
    rw [okPolls, ih (k + 1), okPolls]
    simp [show k + 1 + n = k + (n + 1) by omega]

theorem stdout_append (evs : List Event) (r : Run) :
    (Run.after evs r).stdout = (Run.mk evs .running).stdout ++ r.stdout := by
  simp [Run.after, Run.stdout]

theorem calls_append (evs : List Event) (r : Run) :
    (Run.after evs r).calls = (Run.mk evs .running).calls ++ r.calls := by
  simp [Run.after, Run.calls]

theorem okPolls_stdout (d : AppConfigData) (t : String) (p : Nat → PollOutput) (k : Nat)
    (st : Status) :
    ∀ n, (Run.mk (okPolls d t p k n) st).stdout =
      (List.range n).map fun j => configLine (p (k + j)).Configuration := by
  intro n
  induction n with
  | zero => rfl
  | succ n ih =>
    rw [okPolls_succ, List.range_succ, List.map_append]
    simp only [Run.stdout, List.filterMap_append] at ih ⊢
    rw [ih]
    simp

theorem okPolls_calls (d : AppConfigData) (t : String) (p : Nat → PollOutput) (k : Nat)
    (st : Status) :
    ∀ n, (Run.mk (okPolls d t p k n) st).calls =
      List.replicate n (.getLatestConfiguration d t) := by
  intro n
  induction n with
  | zero => rfl
  | succ n ih =>
    rw [okPolls_succ, List.replicate_succ']
    simp only [Run.calls, List.filterMap_append] at ih ⊢
    rw [ih]
    simp

theorem answerOf_ok (sdk : SDK) (d : AppConfigData) (t : String) (n : Nat)
    (h : ∀ j, j < n → ∃ r, sdk.getLatestConfiguration d j t = .ok r) :
    ∀ j, j < n → sdk.getLatestConfiguration d (0 + j) t = .ok (answerOf sdk d t (0 + j)) := by
  intro j hj
  obtain ⟨r, hr⟩ := h j hj
  simp [answerOf, hr]

/-! ## The run of `main` -/

/-- A run that reaches the loop is the startup events followed by the loop. -/
theorem main_enters_loop (sdk : SDK) (fl : Flags) (sess : Session) (config : Config)
    (appID envID cpID token : String)
    (h : EntersLoop sdk fl sess config appID envID cpID token) (fuel : Nat) :
    main sdk fl fuel =
      Run.after (startupEvents ⟨sess, config⟩ ⟨sess, config⟩ appID envID cpID)
        (pollLoop sdk ⟨sess, config⟩ token 0 fuel) := by
  obtain ⟨hs, ha, he, hc, ht⟩ := h
  simp [main, hs, ha, he, hc, ht, startupEvents]

/-! ## The poll loop in `main`: claims C7, C10, C4 -/

/-- C7: in a run that reaches the loop, when the polls before poll `k` (counted
from 0) succeed and poll `k` returns payload `p`, the iteration adds to the
trace a sleep, the poll and one write to standard output of exactly
`config: '` followed by `p`, `'` and a newline, the payload unchanged and an
empty payload treated like any other. -/
theorem poll_prints_config_line (sdk : SDK) (fl : Flags) (sess : Session) (config : Config)
    (appID envID cpID token : String)
    (h : EntersLoop sdk fl sess config appID envID cpID token) (k : Nat) (r : PollOutput)
    (hprev : ∀ j, j < k → ∃ q, sdk.getLatestConfiguration ⟨sess, config⟩ j token = .ok q)
    (hk : sdk.getLatestConfiguration ⟨sess, config⟩ k token = .ok r) :
    (main sdk fl (k + 1)).events =
      (main sdk fl k).events ++
        [.sleep, .call (.getLatestConfiguration ⟨sess, config⟩ token),
          .print ("config: '" ++ r.Configuration ++ "'\n")] ∧
    (main sdk fl (k + 1)).stdout =
      (main sdk fl k).stdout ++ ["config: '" ++ r.Configuration ++ "'\n"] := by
  have hall : ∀ j, j < k + 1 →
      ∃ q, sdk.getLatestConfiguration ⟨sess, config⟩ j token = .ok q := by
    intro j hj
    rcases Nat.lt_succ_iff_lt_or_eq.mp hj with h1 | h1
    · exact hprev j h1
    · exact ⟨r, by rw [h1]; exact hk⟩
  have hr : (answerOf sdk ⟨sess, config⟩ token (0 + k)).Configuration = r.Configuration := by
    simp [answerOf, hk]
  have hev : (main sdk fl (k + 1)).events =
      (main sdk fl k).events ++
        [.sleep, .call (.getLatestConfiguration ⟨sess, config⟩ token),
          .print ("config: '" ++ r.Configuration ++ "'\n")] := by
    rw [main_enters_loop sdk fl sess config appID envID cpID token h,
      main_enters_loop sdk fl sess config appID envID cpID token h,
      pollLoop_ok sdk _ token _ (k + 1) 0 (answerOf_ok sdk _ token (k + 1) hall),
      pollLoop_ok sdk _ token _ k 0 (answerOf_ok sdk _ token k hprev),
      okPolls_succ, hr]
    simp [Run.after, configLine]
  refine ⟨hev, ?_⟩
  simp [Run.stdout, hev]

/-- C7 in the end-to-end scenario: the first poll returns `v=1` and prints
`config: 'v=1'`; the second returns an empty payload and prints `config: ''`. -/
theorem poll_prints_config_line_witness :
    ((main (demoSDK lenientPoll) demoFlags 2).events =
      (main (demoSDK lenientPoll) demoFlags 1).events ++
        [.sleep, .call (.getLatestConfiguration demoData "tok-0"),
          .print ("config: '" ++ (PollOutput.mk (some "tok-2") "").Configuration ++ "'\n")] ∧
     (main (demoSDK lenientPoll) demoFlags 2).stdout =
      (main (demoSDK lenientPoll) demoFlags 1).stdout ++
        ["config: '" ++ (PollOutput.mk (some "tok-2") "").Configuration ++ "'\n"]) ∧
    (main (demoSDK lenientPoll) demoFlags 1).stdout =
      ["appID: a1\n", "envID: e1\n", "config-profile-id: 'c1'\n", "config: 'v=1'\n"] ∧
    (main (demoSDK lenientPoll) demoFlags 2).stdout =
      ["appID: a1\n", "envID: e1\n", "config-profile-id: 'c1'\n", "config: 'v=1'\n",
        "config: ''\n"] :=
  ⟨poll_prints_config_line (demoSDK lenientPoll) demoFlags (.mk (baseConfig demoFlags))
      Config.zero "a1" "e1" "c1" "tok-0" ⟨rfl, rfl, rfl, rfl, rfl⟩ 1 ⟨some "tok-2", ""⟩
      (by
        intro j hj
        obtain rfl : j = 0 := by omega
        exact ⟨_, rfl⟩)
      rfl,
    by decide, by decide⟩

/-- Status of a run that reaches the loop is the status of the loop. -/
theorem main_status_running_iff (sdk : SDK) (fl : Flags) (sess : Session) (config : Config)
    (appID envID cpID token : String)
    (h : EntersLoop sdk fl sess config appID envID cpID token) (n : Nat) :
    (main sdk fl n).status = .running ↔
      ∀ j, j < n → ∃ q, sdk.getLatestConfiguration ⟨sess, config⟩ j token = .ok q := by
  rw [main_enters_loop sdk fl sess config appID envID cpID token h]
  simpa [Run.after] using pollLoop_running_iff sdk ⟨sess, config⟩ token n 0

/-- C10: in a run that reaches the loop (resolution and session start succeed),
for every `n`: if the first `n` polls all succeed, answered by `p 0`, ...,
`p (n - 1)`, then after `n` iterations the process is still running, standard
output holds the appID, envID and config-profile-id lines followed by exactly
the `n` config lines in poll order, and the calls of one more iteration are the
four startup calls followed by `n + 1` polls; and the process is running after
`k` iterations and not after `k + 1` exactly when the first `k` polls succeed
and the next poll returns an error. -/
theorem poll_loop_exits_only_on_failure (sdk : SDK) (fl : Flags) (sess : Session)
    (config : Config) (appID envID cpID token : String)
    (h : EntersLoop sdk fl sess config appID envID cpID token) :
    (∀ (n : Nat) (p : Nat → PollOutput),
      (∀ j, j < n → sdk.getLatestConfiguration ⟨sess, config⟩ j token = .ok (p j)) →
      (main sdk fl n).status = .running ∧
      (main sdk fl n).stdout =
        ["appID: " ++ appID ++ "\n", "envID: " ++ envID ++ "\n",
          "config-profile-id: '" ++ cpID ++ "'\n"] ++
        (List.range n).map (fun j => "config: '" ++ (p j).Configuration ++ "'\n") ∧
      (main sdk fl (n + 1)).calls =
        [.listApplications ⟨sess, config⟩, .listEnvironments ⟨sess, config⟩ appID,
          .listConfigurationProfiles ⟨sess, config⟩ appID,
          .startConfigurationSession ⟨sess, config⟩ appID envID cpID] ++
        List.replicate (n + 1) (.getLatestConfiguration ⟨sess, config⟩ token)) ∧
    (∀ k : Nat,
      ((main sdk fl k).status = .running ∧ (main sdk fl (k + 1)).status ≠ .running) ↔
      ((∀ j, j < k → ∃ q, sdk.getLatestConfiguration ⟨sess, config⟩ j token = .ok q) ∧
        ∃ e, sdk.getLatestConfiguration ⟨sess, config⟩ k token = .error e)) := by
  have hm := main_enters_loop sdk fl sess config appID envID cpID token h
  constructor
  · intro n p hp
    have hp0 : ∀ j, j < n →
        sdk.getLatestConfiguration ⟨sess, config⟩ (0 + j) token = .ok (p (0 + j)) := by
      simpa using hp
    refine ⟨?_, ?_, ?_⟩
    · rw [hm, pollLoop_ok sdk _ token p n 0 hp0]
      rfl
    · rw [hm, pollLoop_ok sdk _ token p n 0 hp0, stdout_append, okPolls_stdout]
      simp [Run.stdout, startupEvents, configLine]
    · rw [hm, calls_append]
      have hstart : (Run.mk (startupEvents ⟨sess, config⟩ ⟨sess, config⟩ appID envID cpID)
          .running).calls =
          [.listApplications ⟨sess, config⟩, .listEnvironments ⟨sess, config⟩ appID,
            .listConfigurationProfiles ⟨sess, config⟩ appID,
            .startConfigurationSession ⟨sess, config⟩ appID envID cpID] := by
        simp [Run.calls, startupEvents]
      rw [hstart]
      congr 1
      cases hn : sdk.getLatestConfiguration ⟨sess, config⟩ n token with
      | ok r =>
        have hall : ∀ j, j < n + 1 →
            ∃ q, sdk.getLatestConfiguration ⟨sess, config⟩ j token = .ok q := by
          intro j hj
          rcases Nat.lt_succ_iff_lt_or_eq.mp hj with h1 | h1
          · exact ⟨_, hp j h1⟩
          · exact ⟨r, by rw [h1]; exact hn⟩
        rw [pollLoop_ok sdk _ token _ (n + 1) 0 (answerOf_ok sdk _ token (n + 1) hall),
          okPolls_calls]
      | error e =>
        rw [pollLoop_fail sdk _ token p e n 0 hp0 (by simpa using hn) (n + 1)
          (Nat.lt_succ_self n), List.replicate_succ']
        have := okPolls_calls ⟨sess, config⟩ token p 0 .running n
        simp only [Run.calls, List.filterMap_append] at this ⊢
        rw [this]
        simp
  · intro k
    rw [Ne, main_status_running_iff sdk fl sess config appID envID cpID token h k,
      main_status_running_iff sdk fl sess config appID envID cpID token h (k + 1)]
    constructor
    · rintro ⟨hk, hnot⟩
      refine ⟨hk, ?_⟩
      cases hn : sdk.getLatestConfiguration ⟨sess, config⟩ k token with
      | error e => exact ⟨e, rfl⟩
      | ok r =>
        exfalso
        apply hnot
        intro j hj
        rcases Nat.lt_succ_iff_lt_or_eq.mp hj with h1 | h1
        · exact hk j h1
        · exact ⟨r, by rw [h1]; exact hn⟩
    · rintro ⟨hk, e, he⟩
      refine ⟨hk, ?_⟩
      intro hall
      obtain ⟨q, hq⟩ := hall k (Nat.lt_succ_self k)
      rw [he] at hq
      cases hq

/-- C10 in the end-to-end scenario with two answered polls and a third that
fails: the process runs after two iterations with the two config lines after
the three ID lines, a third poll is issued, and the loop stops there. -/
theorem poll_loop_exits_only_on_failure_witness :
    ((main (demoSDK lenientPoll) demoFlags 2).status = .running ∧
      (main (demoSDK lenientPoll) demoFlags 3).status ≠ .running) ∧
    (main (demoSDK lenientPoll) demoFlags 2).stdout =
      ["appID: a1\n", "envID: e1\n", "config-profile-id: 'c1'\n", "config: 'v=1'\n",
        "config: ''\n"] ∧
    (main (demoSDK lenientPoll) demoFlags 3).calls =
      [.listApplications demoSvc, .listEnvironments demoSvc "a1",
        .listConfigurationProfiles demoSvc "a1",
        .startConfigurationSession demoData "a1" "e1" "c1",
        .getLatestConfiguration demoData "tok-0", .getLatestConfiguration demoData "tok-0",
        .getLatestConfiguration demoData "tok-0"] ∧
    (main (demoSDK lenientPoll) demoFlags 3).status
      = .fatal "err: BadRequestException: bad request" :=
  ⟨((poll_loop_exits_only_on_failure (demoSDK lenientPoll) demoFlags
        (.mk (baseConfig demoFlags)) Config.zero "a1" "e1" "c1" "tok-0"
        ⟨rfl, rfl, rfl, rfl, rfl⟩).2 2).mpr
      ⟨by
        intro j hj
        rcases j with _ | _ | j
        · exact ⟨_, rfl⟩
        · exact ⟨_, rfl⟩
        · omega,
       badRequest, rfl⟩,
    by decide, rfl, rfl⟩

/-- C4 at the scenario of the claim: session start returns `tok-0` and the
first poll returns token `tok-1` with configuration `v=1`, yet the second poll
(and the third) sends `tok-0` again; a service that holds tokens to single use
rejects that second poll and the process ends there. -/
theorem second_poll_resends_initial_token :
    (demoSDK lenientPoll).startConfigurationSession demoData "a1" "e1" "c1"
      = .ok (some "tok-0") ∧
    (demoSDK lenientPoll).getLatestConfiguration demoData 0 "tok-0"
      = .ok ⟨some "tok-1", "v=1"⟩ ∧
    (main (demoSDK lenientPoll) demoFlags 2).calls =
      [.listApplications demoSvc, .listEnvironments demoSvc "a1",
        .listConfigurationProfiles demoSvc "a1",
        .startConfigurationSession demoData "a1" "e1" "c1",
        .getLatestConfiguration demoData "tok-0",
        .getLatestConfiguration demoData "tok-0"] ∧
    (demoSDK strictPoll).getLatestConfiguration demoData 0 "tok-0"
      = .ok ⟨some "tok-1", "v=1"⟩ ∧
    main (demoSDK strictPoll) demoFlags 2 =
      ⟨[.call (.listApplications demoSvc), .print "appID: a1\n",
        .call (.listEnvironments demoSvc "a1"), .print "envID: e1\n",
        .call (.listConfigurationProfiles demoSvc "a1"),
        .print "config-profile-id: 'c1'\n",
        .call (.startConfigurationSession demoData "a1" "e1" "c1"),
        .sleep, .call (.getLatestConfiguration demoData "tok-0"), .print "config: 'v=1'\n",
        .sleep, .call (.getLatestConfiguration demoData "tok-0")],
       .fatal "err: BadRequestException: bad request"⟩ :=
  ⟨rfl, rfl, rfl, rfl, rfl⟩

/-- Every call of a run goes through the client built from the session and
configuration that `openSession` leaves. -/
theorem main_calls_client (sdk : SDK) (fl : Flags) (fuel : Nat) (sess : Session)
    (config : Config) (hs : openSession sdk fl = .ok (sess, config)) :
    ∀ c ∈ (main sdk fl fuel).calls, c.sess = sess ∧ c.config = config := by
  intro c hc
  simp only [main, hs] at hc
  repeat' split at hc
  all_goals first
    | (simp [Run.calls] at hc
       rcases hc with rfl | rfl | rfl | rfl <;> exact ⟨rfl, rfl⟩)
    | (rw [calls_append, List.mem_append] at hc
       rcases hc with hc | hc
       · simp [Run.calls] at hc
         rcases hc with rfl | rfl | rfl | rfl <;> exact ⟨rfl, rfl⟩
       · rw [pollLoop_calls sdk _ _ _ _ c hc]
         exact ⟨rfl, rfl⟩)

theorem length_pos_of_ne_empty (s : String) (h : s ≠ "") : 0 < s.length := by
  rcases s with ⟨l⟩
  cases l with
  | nil => exact absurd rfl h
  | cons a l => simp [String.length]

/-- C8: with the base session `base` made, (1) when a non-empty role ARN is
given and `switchAccount` succeeds with session `sSess`, every remote call of
the run (listings, session start, polls) goes through a client built from
`sSess` and the configuration `switchAccount` returned, whose region is the
base session's region, and `sSess` itself has the base session's region when
the SDK's `NewSession` keeps the region of that configuration;
(2) when the role ARN is empty, every remote call goes through a client built
from the base session and the zero configuration. -/
theorem switched_session_replaces_base (sdk : SDK) (fl : Flags) (fuel : Nat) (base : Session)
    (hb : sdk.newSession (baseConfig fl) = .ok base) :
    (fl.switchRole ≠ "" → ∀ sSess sConfig,
      switchAccount sdk base fl.switchRole = (.ok sSess, sConfig) →
      (∀ c ∈ (main sdk fl fuel).calls, c.sess = sSess ∧ c.config = sConfig) ∧
      sConfig.Region = base.Config.Region ∧
      ((∀ s, sdk.newSession sConfig = .ok s → s.Config.Region = sConfig.Region) →
        sSess.Config.Region = base.Config.Region)) ∧
    (fl.switchRole = "" →
      ∀ c ∈ (main sdk fl fuel).calls, c.sess = base ∧ c.config = Config.zero) := by
  constructor
  · intro hne sSess sConfig hsw
    have hpos := length_pos_of_ne_empty _ hne
    have hs : openSession sdk fl = .ok (sSess, sConfig) := by
      simp [openSession, hb, hpos, hsw]
    refine ⟨main_calls_client sdk fl fuel sSess sConfig hs, ?_, ?_⟩
    · simp only [switchAccount, Prod.mk.injEq] at hsw
      rw [← hsw.2]
      rfl
    · intro hkeep
      simp only [switchAccount, Prod.mk.injEq] at hsw
      obtain ⟨hnew, hcfg⟩ := hsw
      subst hcfg
      rw [hkeep _ hnew]
      rfl
  · intro he
    have hs : openSession sdk fl = .ok (base, Config.zero) := by
      simp [openSession, hb, he]
    exact main_calls_client sdk fl fuel base Config.zero hs

/-- C8 in the end-to-end scenario: with a role, the listings, session start and
poll all go through clients of the switched session, in the base session's
region `eu-west-1`; without one, through clients of the base session. -/
theorem switched_session_replaces_base_witness :
    ((∀ c ∈ (main (demoSDK lenientPoll) roleFlags 1).calls,
        c.sess = .mk roleConfig ∧ c.config = roleConfig) ∧
      roleConfig.Region = (Session.mk (baseConfig roleFlags)).Config.Region ∧
      ((∀ s, (demoSDK lenientPoll).newSession roleConfig = .ok s →
          s.Config.Region = roleConfig.Region) →
        (Session.mk roleConfig).Config.Region
          = (Session.mk (baseConfig roleFlags)).Config.Region)) ∧
    (∀ c ∈ (main (demoSDK lenientPoll) demoFlags 1).calls,
      c.sess = .mk (baseConfig demoFlags) ∧ c.config = Config.zero) ∧
    (main (demoSDK lenientPoll) roleFlags 1).calls =
      [.listApplications roleSvc, .listEnvironments roleSvc "a1",
        .listConfigurationProfiles roleSvc "a1",
        .startConfigurationSession roleData "a1" "e1" "c1",
        .getLatestConfiguration roleData "tok-0"] ∧
    (Session.mk roleConfig).Config.Region = some "eu-west-1" ∧
    (Session.mk (baseConfig roleFlags)).Config.Region = some "eu-west-1" :=
  ⟨(switched_session_replaces_base (demoSDK lenientPoll) roleFlags 1
      (.mk (baseConfig roleFlags)) rfl).1 (by decide) (.mk roleConfig) roleConfig rfl,
    (switched_session_replaces_base (demoSDK lenientPoll) demoFlags 1
      (.mk (baseConfig demoFlags)) rfl).2 rfl,
    rfl, rfl, rfl⟩

/-! ## Chaining, failures and unmatched names: claims C5, C6, C9 -/

theorem getApplicationID_of_error (sdk : SDK) (svc : AppConfig) (n : String) (e : GoError)
    (h : sdk.listApplications svc = .error e) :
    getApplicationID sdk svc n = some ("", some e) := by
  simp [getApplicationID, h]

theorem getEnvironmentID_of_error (sdk : SDK) (svc : AppConfig) (a n : String) (e : GoError)
    (h : sdk.listEnvironments svc a = .error e) :
    getEnvironmentID sdk svc a n = some ("", some e) := by
  simp [getEnvironmentID, h]

theorem getConfigProfileID_of_error (sdk : SDK) (svc : AppConfig) (a n : String)
    (e : GoError) (h : sdk.listConfigurationProfiles svc a = .error e) :
    getConfigProfileID sdk svc a n = some ("", some e) := by
  simp [getConfigProfileID, h]

theorem getAppconfigDataToken_of_error (sdk : SDK) (svc : AppConfigData) (a en c : String)
    (e : GoError) (h : sdk.startConfigurationSession svc a en c = .error e) :
    getAppconfigDataToken sdk svc a en c = some ("", some e) := by
  simp [getAppconfigDataToken, h]

/-- C5: with the sessions made and the application listing scanning to `appID`,
the run is decided by what the SDK answers at the chained arguments.  The
environment listing is the one requested with `ApplicationId = appID`: its
error ends the run there, and when its entries scan to `envID` the profile
listing is the one requested with `ApplicationId = appID`: its error ends the
run there, and when its entries scan to `cpID` session start is the one called
with exactly `(appID, envID, cpID)`: its error ends the run there, and when it
answers token `tok` the run is the four startup calls and three ID lines
followed by the poll loop entered with `tok`, every later call being a poll
that carries `tok`. -/
theorem resolution_chained_on_application (sdk : SDK) (fl : Flags) (fuel : Nat)
    (sess : Session) (config : Config) (apps : Items) (appID : String)
    (hs : openSession sdk fl = .ok (sess, config))
    (hla : sdk.listApplications ⟨sess, config⟩ = .ok apps)
    (hsa : scanItems fl.application apps "" = some appID) :
    (∃ rest, (main sdk fl fuel).calls =
      [.listApplications ⟨sess, config⟩, .listEnvironments ⟨sess, config⟩ appID] ++ rest) ∧
    (∀ e, sdk.listEnvironments ⟨sess, config⟩ appID = .error e →
      main sdk fl fuel =
        ⟨[.call (.listApplications ⟨sess, config⟩), .print ("appID: " ++ appID ++ "\n"),
          .call (.listEnvironments ⟨sess, config⟩ appID)], .fatal ("err: " ++ e.text)⟩) ∧
    (∀ envs envID, sdk.listEnvironments ⟨sess, config⟩ appID = .ok envs →
      scanItems fl.environment envs "" = some envID →
      (∃ rest, (main sdk fl fuel).calls =
        [.listApplications ⟨sess, config⟩, .listEnvironments ⟨sess, config⟩ appID,
          .listConfigurationProfiles ⟨sess, config⟩ appID] ++ rest) ∧
      (∀ e, sdk.listConfigurationProfiles ⟨sess, config⟩ appID = .error e →
        main sdk fl fuel =
          ⟨[.call (.listApplications ⟨sess, config⟩), .print ("appID: " ++ appID ++ "\n"),
            .call (.listEnvironments ⟨sess, config⟩ appID),
            .print ("envID: " ++ envID ++ "\n"),
            .call (.listConfigurationProfiles ⟨sess, config⟩ appID)],
            .fatal ("err: " ++ e.text)⟩) ∧
      (∀ cps cpID, sdk.listConfigurationProfiles ⟨sess, config⟩ appID = .ok cps →
        scanItems fl.configProfile cps "" = some cpID →
        (∀ e, sdk.startConfigurationSession ⟨sess, config⟩ appID envID cpID = .error e →
          main sdk fl fuel =
            ⟨[.call (.listApplications ⟨sess, config⟩),
              .print ("appID: " ++ appID ++ "\n"),
              .call (.listEnvironments ⟨sess, config⟩ appID),
              .print ("envID: " ++ envID ++ "\n"),
              .call (.listConfigurationProfiles ⟨sess, config⟩ appID),
              .print ("config-profile-id: '" ++ cpID ++ "'\n"),
              .call (.startConfigurationSession ⟨sess, config⟩ appID envID cpID)],
              .fatal ("err: " ++ e.text)⟩) ∧
        (∀ tok,
          sdk.startConfigurationSession ⟨sess, config⟩ appID envID cpID = .ok (some tok) →
          main sdk fl fuel =
            Run.after
              [.call (.listApplications ⟨sess, config⟩),
                .print ("appID: " ++ appID ++ "\n"),
                .call (.listEnvironments ⟨sess, config⟩ appID),
                .print ("envID: " ++ envID ++ "\n"),
                .call (.listConfigurationProfiles ⟨sess, config⟩ appID),
                .print ("config-profile-id: '" ++ cpID ++ "'\n"),
                .call (.startConfigurationSession ⟨sess, config⟩ appID envID cpID)]
              (pollLoop sdk ⟨sess, config⟩ tok 0 fuel) ∧
          (∃ rest, (main sdk fl fuel).calls =
            [.listApplications ⟨sess, config⟩, .listEnvironments ⟨sess, config⟩ appID,
              .listConfigurationProfiles ⟨sess, config⟩ appID,
              .startConfigurationSession ⟨sess, config⟩ appID envID cpID] ++ rest ∧
            (∀ c ∈ rest, c = .getLatestConfiguration ⟨sess, config⟩ tok) ∧
            (0 < fuel → ∃ more,
              rest = .getLatestConfiguration ⟨sess, config⟩ tok :: more))))) := by
  have ha : getApplicationID sdk ⟨sess, config⟩ fl.application = some (appID, none) := by
    simp [getApplicationID, hla, hsa]
  refine ⟨?_, ?_, ?_⟩
  · simp only [main, hs, ha]
    repeat' split
    all_goals first
      | exact ⟨_, by simp [Run.calls]⟩
      | exact ⟨_, by simp [Run.calls, Run.after]; rfl⟩
  · intro e h
    simp [main, hs, ha, getEnvironmentID_of_error sdk _ _ _ e h, fatalMessage]
  · intro envs envID hle hse
    have he : getEnvironmentID sdk ⟨sess, config⟩ appID fl.environment
        = some (envID, none) := by
      simp [getEnvironmentID, hle, hse]
    refine ⟨?_, ?_, ?_⟩
    · simp only [main, hs, ha, he]
      repeat' split
      all_goals first
        | exact ⟨_, by simp [Run.calls]⟩
        | exact ⟨_, by simp [Run.calls, Run.after]; rfl⟩
    · intro e h
      simp [main, hs, ha, he, getConfigProfileID_of_error sdk _ _ _ e h, fatalMessage]
    · intro cps cpID hlc hsc
      have hc : getConfigProfileID sdk ⟨sess, config⟩ appID fl.configProfile
          = some (cpID, none) := by
        simp [getConfigProfileID, hlc, hsc]
      refine ⟨?_, ?_⟩
      · intro e h
        simp [main, hs, ha, he, hc, getAppconfigDataToken_of_error sdk _ _ _ _ e h,
          fatalMessage]
      · intro tok h
        have ht : getAppconfigDataToken sdk ⟨sess, config⟩ appID envID cpID
            = some (tok, none) := by
          simp [getAppconfigDataToken, h]
        have hm := main_enters_loop sdk fl sess config appID envID cpID tok
          ⟨hs, ha, he, hc, ht⟩ fuel
        refine ⟨by rw [hm]; rfl, (pollLoop sdk ⟨sess, config⟩ tok 0 fuel).calls, ?_, ?_, ?_⟩
        · rw [hm, calls_append]
          simp [Run.calls, startupEvents]
        · intro c hc'
          exact pollLoop_calls sdk _ _ _ _ c hc'
        · intro hpos
          obtain ⟨f, rfl⟩ : ∃ f, fuel = f + 1 := ⟨fuel - 1, by omega⟩
          cases h0 : sdk.getLatestConfiguration ⟨sess, config⟩ 0 tok with
          | error e => exact ⟨[], by simp [pollLoop, h0, Run.calls]⟩
          | ok r => exact ⟨_, by simp [pollLoop, h0, Run.calls, Run.after]; rfl⟩

/-- C5 in the end-to-end scenario, whose service answers the environment and
profile listings only for `a1` and session start only for `(a1, e1, c1)`:
`prod`, `live`, `main` resolve to `a1`, `e1`, `c1`, both later listings are
requested for `a1`, the session is started with `(a1, e1, c1)`, and the first
poll carries the token `tok-0` that session start answered. -/
theorem resolution_chained_on_application_witness :
    (main (demoSDK lenientPoll) demoFlags 1 =
      Run.after
        [.call (.listApplications demoSvc), .print ("appID: " ++ "a1" ++ "\n"),
          .call (.listEnvironments demoSvc "a1"), .print ("envID: " ++ "e1" ++ "\n"),
          .call (.listConfigurationProfiles demoSvc "a1"),
          .print ("config-profile-id: '" ++ "c1" ++ "'\n"),
          .call (.startConfigurationSession demoData "a1" "e1" "c1")]
        (pollLoop (demoSDK lenientPoll) demoData "tok-0" 0 1) ∧
      (∃ rest, (main (demoSDK lenientPoll) demoFlags 1).calls =
        [.listApplications demoSvc, .listEnvironments demoSvc "a1",
          .listConfigurationProfiles demoSvc "a1",
          .startConfigurationSession demoData "a1" "e1" "c1"] ++ rest ∧
        (∀ c ∈ rest, c = .getLatestConfiguration demoData "tok-0") ∧
        (0 < 1 → ∃ more, rest = .getLatestConfiguration demoData "tok-0" :: more))) ∧
    getApplicationID (demoSDK lenientPoll) demoSvc "prod" = some ("a1", none) ∧
    getEnvironmentID (demoSDK lenientPoll) demoSvc "a1" "live" = some ("e1", none) ∧
    getConfigProfileID (demoSDK lenientPoll) demoSvc "a1" "main" = some ("c1", none) ∧
    getAppconfigDataToken (demoSDK lenientPoll) demoData "a1" "e1" "c1"
      = some ("tok-0", none) ∧
    main (demoSDK lenientPoll) demoFlags 1 =
      ⟨[.call (.listApplications demoSvc), .print "appID: a1\n",
        .call (.listEnvironments demoSvc "a1"), .print "envID: e1\n",
        .call (.listConfigurationProfiles demoSvc "a1"),
        .print "config-profile-id: 'c1'\n",
        .call (.startConfigurationSession demoData "a1" "e1" "c1"),
        .sleep, .call (.getLatestConfiguration demoData "tok-0"),
        .print "config: 'v=1'\n"], .running⟩ :=
  ⟨(((resolution_chained_on_application (demoSDK lenientPoll) demoFlags 1
      (.mk (baseConfig demoFlags)) Config.zero [some ⟨some "prod", some "a1"⟩] "a1"
      rfl rfl rfl).2.2 [some ⟨some "live", some "e1"⟩] "e1" rfl rfl).2.2
      [some ⟨some "main", some "c1"⟩] "c1" rfl rfl).2 "tok-0" rfl,
    rfl, rfl, rfl, rfl, rfl⟩

/-- C6: with the sessions made, a failing remote call ends the run at that call
with the fatal message of its error, whatever the number of loop iterations
observed: the trace holds the calls and output of the stages before it and
ends with the failing call, so no later call is made and nothing is printed for
the failing stage or after it.  The stages are the application listing, the
environment listing, the profile listing, session start, and poll `k` after
`k` answered polls. -/
theorem remote_failure_ends_run (sdk : SDK) (fl : Flags) (fuel : Nat) (sess : Session)
    (config : Config) (e : GoError) (hs : openSession sdk fl = .ok (sess, config)) :
    (sdk.listApplications ⟨sess, config⟩ = .error e →
      main sdk fl fuel =
        ⟨[.call (.listApplications ⟨sess, config⟩)], .fatal ("err: " ++ e.text)⟩) ∧
    (∀ appID, getApplicationID sdk ⟨sess, config⟩ fl.application = some (appID, none) →
      sdk.listEnvironments ⟨sess, config⟩ appID = .error e →
      main sdk fl fuel =
        ⟨[.call (.listApplications ⟨sess, config⟩), .print ("appID: " ++ appID ++ "\n"),
          .call (.listEnvironments ⟨sess, config⟩ appID)], .fatal ("err: " ++ e.text)⟩) ∧
    (∀ appID envID,
      getApplicationID sdk ⟨sess, config⟩ fl.application = some (appID, none) →
      getEnvironmentID sdk ⟨sess, config⟩ appID fl.environment = some (envID, none) →
      sdk.listConfigurationProfiles ⟨sess, config⟩ appID = .error e →
      main sdk fl fuel =
        ⟨[.call (.listApplications ⟨sess, config⟩), .print ("appID: " ++ appID ++ "\n"),
          .call (.listEnvironments ⟨sess, config⟩ appID), .print ("envID: " ++ envID ++ "\n"),
          .call (.listConfigurationProfiles ⟨sess, config⟩ appID)],
          .fatal ("err: " ++ e.text)⟩) ∧
    (∀ appID envID cpID,
      getApplicationID sdk ⟨sess, config⟩ fl.application = some (appID, none) →
      getEnvironmentID sdk ⟨sess, config⟩ appID fl.environment = some (envID, none) →
      getConfigProfileID sdk ⟨sess, config⟩ appID fl.configProfile = some (cpID, none) →
      sdk.startConfigurationSession ⟨sess, config⟩ appID envID cpID = .error e →
      main sdk fl fuel =
        ⟨[.call (.listApplications ⟨sess, config⟩), .print ("appID: " ++ appID ++ "\n"),
          .call (.listEnvironments ⟨sess, config⟩ appID), .print ("envID: " ++ envID ++ "\n"),
          .call (.listConfigurationProfiles ⟨sess, config⟩ appID),
          .print ("config-profile-id: '" ++ cpID ++ "'\n"),
          .call (.startConfigurationSession ⟨sess, config⟩ appID envID cpID)],
          .fatal ("err: " ++ e.text)⟩) ∧
    (∀ appID envID cpID token (k : Nat) (p : Nat → PollOutput),
      getApplicationID sdk ⟨sess, config⟩ fl.application = some (appID, none) →
      getEnvironmentID sdk ⟨sess, config⟩ appID fl.environment = some (envID, none) →
      getConfigProfileID sdk ⟨sess, config⟩ appID fl.configProfile = some (cpID, none) →
      getAppconfigDataToken sdk ⟨sess, config⟩ appID envID cpID = some (token, none) →
      (∀ j, j < k → sdk.getLatestConfiguration ⟨sess, config⟩ j token = .ok (p j)) →
      sdk.getLatestConfiguration ⟨sess, config⟩ k token = .error e →
      k < fuel →
      main sdk fl fuel =
        ⟨startupEvents ⟨sess, config⟩ ⟨sess, config⟩ appID envID cpID ++
          okPolls ⟨sess, config⟩ token p 0 k ++
          [.sleep, .call (.getLatestConfiguration ⟨sess, config⟩ token)],
          .fatal ("err: " ++ e.text)⟩) := by
  refine ⟨?_, ?_, ?_, ?_, ?_⟩
  · intro h
    simp [main, hs, getApplicationID_of_error sdk _ _ e h, fatalMessage]
  · intro appID ha h
    simp [main, hs, ha, getEnvironmentID_of_error sdk _ _ _ e h, fatalMessage]
  · intro appID envID ha he h
    simp [main, hs, ha, he, getConfigProfileID_of_error sdk _ _ _ e h, fatalMessage]
  · intro appID envID cpID ha he hc h
    simp [main, hs, ha, he, hc, getAppconfigDataToken_of_error sdk _ _ _ _ e h, fatalMessage]
  · intro appID envID cpID token k p ha he hc ht hp hk hlt
    have hp0 : ∀ j, j < k →
        sdk.getLatestConfiguration ⟨sess, config⟩ (0 + j) token = .ok (p (0 + j)) := by
      simpa using hp
    rw [main_enters_loop sdk fl sess config appID envID cpID token ⟨hs, ha, he, hc, ht⟩,
      pollLoop_fail sdk _ token p e k 0 hp0 (by simpa using hk) fuel hlt]
    simp [Run.after, fatalMessage]

/-- C6 in the end-to-end scenario, failing in turn at each of the five stages. -/
theorem remote_failure_ends_run_witness :
    main (failAt 0) demoFlags 3 =
      ⟨[.call (.listApplications demoSvc)], .fatal "err: BadRequestException: bad request"⟩ ∧
    main (failAt 1) demoFlags 3 =
      ⟨[.call (.listApplications demoSvc), .print "appID: a1\n",
        .call (.listEnvironments demoSvc "a1")],
        .fatal "err: BadRequestException: bad request"⟩ ∧
    main (failAt 2) demoFlags 3 =
      ⟨[.call (.listApplications demoSvc), .print "appID: a1\n",
        .call (.listEnvironments demoSvc "a1"), .print "envID: e1\n",
        .call (.listConfigurationProfiles demoSvc "a1")],
        .fatal "err: BadRequestException: bad request"⟩ ∧
    main (failAt 3) demoFlags 3 =
      ⟨[.call (.listApplications demoSvc), .print "appID: a1\n",
        .call (.listEnvironments demoSvc "a1"), .print "envID: e1\n",
        .call (.listConfigurationProfiles demoSvc "a1"),
        .print "config-profile-id: 'c1'\n",
        .call (.startConfigurationSession demoData "a1" "e1" "c1")],
        .fatal "err: BadRequestException: bad request"⟩ ∧
    main (failAt 4) demoFlags 3 =
      ⟨[.call (.listApplications demoSvc), .print "appID: a1\n",
        .call (.listEnvironments demoSvc "a1"), .print "envID: e1\n",
        .call (.listConfigurationProfiles demoSvc "a1"),
        .print "config-profile-id: 'c1'\n",
        .call (.startConfigurationSession demoData "a1" "e1" "c1"),
        .sleep, .call (.getLatestConfiguration demoData "tok-0"), .print "config: 'v=1'\n",
        .sleep, .call (.getLatestConfiguration demoData "tok-0"), .print "config: ''\n",
        .sleep, .call (.getLatestConfiguration demoData "tok-0")],
        .fatal "err: BadRequestException: bad request"⟩ :=
  ⟨(remote_failure_ends_run (failAt 0) demoFlags 3 (.mk (baseConfig demoFlags)) Config.zero
      badRequest rfl).1 rfl,
    (remote_failure_ends_run (failAt 1) demoFlags 3 (.mk (baseConfig demoFlags)) Config.zero
      badRequest rfl).2.1 "a1" rfl rfl,
    (remote_failure_ends_run (failAt 2) demoFlags 3 (.mk (baseConfig demoFlags)) Config.zero
      badRequest rfl).2.2.1 "a1" "e1" rfl rfl rfl,
    (remote_failure_ends_run (failAt 3) demoFlags 3 (.mk (baseConfig demoFlags)) Config.zero
      badRequest rfl).2.2.2.1 "a1" "e1" "c1" rfl rfl rfl rfl,
    (remote_failure_ends_run (failAt 4) demoFlags 3 (.mk (baseConfig demoFlags)) Config.zero
      badRequest rfl).2.2.2.2 "a1" "e1" "c1" "tok-0" 2 lenientAnswers rfl rfl rfl rfl
      (by
        intro j hj
        rcases j with _ | _ | j
        · rfl
        · rfl
        · omega)
      rfl (by decide)⟩

theorem scanItems_complete (name : String) (l : Items) (acc : String) (hc : Complete l) :
    ∃ id, scanItems name l acc = some id := by
  obtain ⟨acc', h⟩ := scanItems_append name l [] acc (complete_scannable name hc)
  rw [List.append_nil] at h
  exact ⟨acc', by rw [h]; rfl⟩

theorem getApplicationID_ne_none (sdk : SDK) (hw : sdk.NoNil) (svc : AppConfig) (n : String) :
    getApplicationID sdk svc n ≠ none := by
  unfold getApplicationID
  cases h : sdk.listApplications svc with
  | error e => simp
  | ok items =>
    obtain ⟨id, hid⟩ := scanItems_complete n items "" (hw.1 svc items h)
    simp [hid]

theorem getEnvironmentID_ne_none (sdk : SDK) (hw : sdk.NoNil) (svc : AppConfig)
    (a n : String) : getEnvironmentID sdk svc a n ≠ none := by
  unfold getEnvironmentID
  cases h : sdk.listEnvironments svc a with
  | error e => simp
  | ok items =>
    obtain ⟨id, hid⟩ := scanItems_complete n items "" (hw.2.1 svc a items h)
    simp [hid]

theorem getConfigProfileID_ne_none (sdk : SDK) (hw : sdk.NoNil) (svc : AppConfig)
    (a n : String) : getConfigProfileID sdk svc a n ≠ none := by
  unfold getConfigProfileID
  cases h : sdk.listConfigurationProfiles svc a with
  | error e => simp
  | ok items =>
    obtain ⟨id, hid⟩ := scanItems_complete n items "" (hw.2.2.1 svc a items h)
    simp [hid]

theorem getAppconfigDataToken_ne_none (sdk : SDK) (hw : sdk.NoNil) (svc : AppConfigData)
    (a en c : String) : getAppconfigDataToken sdk svc a en c ≠ none := by
  unfold getAppconfigDataToken
  cases h : sdk.startConfigurationSession svc a en c with
  | error e => simp
  | ok tok =>
    cases tok with
    | none => exact absurd h (hw.2.2.2 svc a en c)
    | some t => simp

theorem getApplicationID_error (sdk : SDK) (svc : AppConfig) (n id : String) (e : GoError)
    (h : getApplicationID sdk svc n = some (id, some e)) :
    sdk.listApplications svc = .error e := by
  unfold getApplicationID at h
  cases hl : sdk.listApplications svc with
  | error err =>
    rw [hl] at h
    simp at h
    rw [h.2]
  | ok items =>
    rw [hl] at h
    dsimp only at h
    split at h <;> simp at h

theorem getEnvironmentID_error (sdk : SDK) (svc : AppConfig) (a n id : String) (e : GoError)
    (h : getEnvironmentID sdk svc a n = some (id, some e)) :
    sdk.listEnvironments svc a = .error e := by
  unfold getEnvironmentID at h
  cases hl : sdk.listEnvironments svc a with
  | error err =>
    rw [hl] at h
    simp at h
    rw [h.2]
  | ok items =>
    rw [hl] at h
    dsimp only at h
    split at h <;> simp at h

theorem getConfigProfileID_error (sdk : SDK) (svc : AppConfig) (a n id : String)
    (e : GoError) (h : getConfigProfileID sdk svc a n = some (id, some e)) :
    sdk.listConfigurationProfiles svc a = .error e := by
  unfold getConfigProfileID at h
  cases hl : sdk.listConfigurationProfiles svc a with
  | error err =>
    rw [hl] at h
    simp at h
    rw [h.2]
  | ok items =>
    rw [hl] at h
    dsimp only at h
    split at h <;> simp at h

theorem getAppconfigDataToken_error (sdk : SDK) (svc : AppConfigData) (a en c id : String)
    (e : GoError) (h : getAppconfigDataToken sdk svc a en c = some (id, some e)) :
    sdk.startConfigurationSession svc a en c = .error e := by
  unfold getAppconfigDataToken at h
  split at h
  · rename_i err hl
    simp at h
    rw [hl, h.2]
  · simp at h
  · simp at h

/-- A loop that is no longer running made a poll that was answered with an
error, and ended with the fatal message of that error. -/
theorem pollLoop_stops (sdk : SDK) (d : AppConfigData) (t : String) :
    ∀ n k, (pollLoop sdk d t k n).status ≠ .running →
      ∃ e, (∃ j, sdk.getLatestConfiguration d j t = .error e) ∧
        Call.getLatestConfiguration d t ∈ (pollLoop sdk d t k n).calls ∧
        (pollLoop sdk d t k n).status = .fatal (fatalMessage e) := by
  intro n
  induction n with
  | zero => intro k h; exact absurd rfl h
  | succ n ih =>
    intro k h
    cases h0 : sdk.getLatestConfiguration d k t with
    | error e =>
      refine ⟨e, ⟨k, h0⟩, ?_, ?_⟩
      · simp [pollLoop, h0, Run.calls]
      · simp [pollLoop, h0]
    | ok r =>
      simp only [pollLoop, h0, Run.after] at h ⊢
      obtain ⟨e, hj, hmem, hst⟩ := ih (k + 1) h
      exact ⟨e, hj, by simp [Run.calls], hst⟩

/-- A run that is past `openSession` and no longer running, against an SDK that
hands out no nil pointer, made a call that was answered with an error and ended
with the fatal message of that error. -/
theorem main_stops (sdk : SDK) (fl : Flags) (fuel : Nat) (sess : Session) (config : Config)
    (hw : sdk.NoNil) (hs : openSession sdk fl = .ok (sess, config))
    (h : (main sdk fl fuel).status ≠ .running) :
    ∃ e c, c ∈ (main sdk fl fuel).calls ∧ sdk.failsWith e c ∧
      (main sdk fl fuel).status = .fatal (fatalMessage e) := by
  revert h
  simp only [main, hs]
  repeat' split
  all_goals intro h
  · rename_i hx
    exact absurd hx (getApplicationID_ne_none sdk hw _ _)
  · rename_i id err hx
    exact ⟨err, .listApplications ⟨sess, config⟩, by simp [Run.calls],
      getApplicationID_error sdk _ _ _ _ hx, rfl⟩
  · rename_i hx
    exact absurd hx (getEnvironmentID_ne_none sdk hw _ _ _)
  · rename_i id err hx
    exact ⟨err, .listEnvironments ⟨sess, config⟩ _, by simp [Run.calls],
      getEnvironmentID_error sdk _ _ _ _ _ hx, rfl⟩
  · rename_i hx
    exact absurd hx (getConfigProfileID_ne_none sdk hw _ _ _)
  · rename_i id err hx
    exact ⟨err, .listConfigurationProfiles ⟨sess, config⟩ _, by simp [Run.calls],
      getConfigProfileID_error sdk _ _ _ _ _ hx, rfl⟩
  · rename_i hx
    exact absurd hx (getAppconfigDataToken_ne_none sdk hw _ _ _ _)
  · rename_i id err hx
    exact ⟨err, .startConfigurationSession ⟨sess, config⟩ _ _ _, by simp [Run.calls],
      getAppconfigDataToken_error sdk _ _ _ _ _ _ hx, rfl⟩
  · rename_i token hx
    obtain ⟨e, hj, hmem, hst⟩ := pollLoop_stops sdk ⟨sess, config⟩ token fuel 0 h
    refine ⟨e, .getLatestConfiguration ⟨sess, config⟩ token, ?_, hj, hst⟩
    rw [calls_append, List.mem_append]
    exact Or.inr hmem

/-- C9: against an SDK that hands out no nil pointer and with the sessions made,
(1) when the application listing succeeds with no entry named as requested, the
run prints `appID: ` with an empty ID and goes on to request the environment
listing with the empty string as `ApplicationId`, and, when the environment
lookup returns, the profile listing with the empty string as well; (2) an
unmatched environment name gives session start an empty environment ID;
(3) an unmatched profile name gives it an empty profile ID; (4) when the
application listing succeeded, the process has stopped only if a later remote
call was answered with an error, and it stopped with that error's message. -/
theorem unmatched_name_does_not_stop (sdk : SDK) (fl : Flags) (fuel : Nat) (sess : Session)
    (config : Config) (hw : sdk.NoNil) (hs : openSession sdk fl = .ok (sess, config)) :
    (∀ apps, sdk.listApplications ⟨sess, config⟩ = .ok apps →
      (∀ r, some r ∈ apps → r.Name ≠ some fl.application) →
      (∃ rest, (main sdk fl fuel).events =
        [.call (.listApplications ⟨sess, config⟩), .print "appID: \n",
          .call (.listEnvironments ⟨sess, config⟩ "")] ++ rest) ∧
      (∀ envID, getEnvironmentID sdk ⟨sess, config⟩ "" fl.environment = some (envID, none) →
        ∃ rest, (main sdk fl fuel).events =
          [.call (.listApplications ⟨sess, config⟩), .print "appID: \n",
            .call (.listEnvironments ⟨sess, config⟩ ""), .print ("envID: " ++ envID ++ "\n"),
            .call (.listConfigurationProfiles ⟨sess, config⟩ "")] ++ rest)) ∧
    (∀ appID envs cpID,
      getApplicationID sdk ⟨sess, config⟩ fl.application = some (appID, none) →
      sdk.listEnvironments ⟨sess, config⟩ appID = .ok envs →
      (∀ r, some r ∈ envs → r.Name ≠ some fl.environment) →
      getConfigProfileID sdk ⟨sess, config⟩ appID fl.configProfile = some (cpID, none) →
      ∃ rest, (main sdk fl fuel).events =
        [.call (.listApplications ⟨sess, config⟩), .print ("appID: " ++ appID ++ "\n"),
          .call (.listEnvironments ⟨sess, config⟩ appID), .print "envID: \n",
          .call (.listConfigurationProfiles ⟨sess, config⟩ appID),
          .print ("config-profile-id: '" ++ cpID ++ "'\n"),
          .call (.startConfigurationSession ⟨sess, config⟩ appID "" cpID)] ++ rest) ∧
    (∀ appID envID cps,
      getApplicationID sdk ⟨sess, config⟩ fl.application = some (appID, none) →
      getEnvironmentID sdk ⟨sess, config⟩ appID fl.environment = some (envID, none) →
      sdk.listConfigurationProfiles ⟨sess, config⟩ appID = .ok cps →
      (∀ r, some r ∈ cps → r.Name ≠ some fl.configProfile) →
      ∃ rest, (main sdk fl fuel).events =
        [.call (.listApplications ⟨sess, config⟩), .print ("appID: " ++ appID ++ "\n"),
          .call (.listEnvironments ⟨sess, config⟩ appID),
          .print ("envID: " ++ envID ++ "\n"),
          .call (.listConfigurationProfiles ⟨sess, config⟩ appID),
          .print "config-profile-id: ''\n",
          .call (.startConfigurationSession ⟨sess, config⟩ appID envID "")] ++ rest) ∧
    (∀ apps, sdk.listApplications ⟨sess, config⟩ = .ok apps →
      (main sdk fl fuel).status ≠ .running →
      ∃ e c, c ∈ (main sdk fl fuel).calls ∧ c ≠ .listApplications ⟨sess, config⟩ ∧
        sdk.failsWith e c ∧ (main sdk fl fuel).status = .fatal ("err: " ++ e.text)) := by
  refine ⟨?_, ?_, ?_, ?_⟩
  · intro apps hl hn
    have ha : getApplicationID sdk ⟨sess, config⟩ fl.application = some ("", none) := by
      simp [getApplicationID, hl,
        scanItems_no_match fl.application apps ""
          (complete_scannable _ (hw.1 _ _ hl)) hn]
    refine ⟨?_, ?_⟩
    · simp only [main, hs, ha]
      repeat' split
      all_goals exact ⟨_, rfl⟩
    · intro envID he
      simp only [main, hs, ha, he]
      repeat' split
      all_goals exact ⟨_, rfl⟩
  · intro appID envs cpID ha hl hn hc
    have he : getEnvironmentID sdk ⟨sess, config⟩ appID fl.environment = some ("", none) := by
      simp [getEnvironmentID, hl,
        scanItems_no_match fl.environment envs ""
          (complete_scannable _ (hw.2.1 _ _ _ hl)) hn]
    simp only [main, hs, ha, he, hc]
    repeat' split
    all_goals exact ⟨_, rfl⟩
  · intro appID envID cps ha he hl hn
    have hc : getConfigProfileID sdk ⟨sess, config⟩ appID fl.configProfile
        = some ("", none) := by
      simp [getConfigProfileID, hl,
        scanItems_no_match fl.configProfile cps ""
          (complete_scannable _ (hw.2.2.1 _ _ _ hl)) hn]
    simp only [main, hs, ha, he, hc]
    repeat' split
    all_goals exact ⟨_, rfl⟩
  · intro apps hl hrun
    obtain ⟨e, c, hmem, hf, hst⟩ := main_stops sdk fl fuel sess config hw hs hrun
    refine ⟨e, c, hmem, ?_, hf, hst⟩
    intro hc
    rw [hc] at hf
    simp only [SDK.failsWith] at hf
    rw [hl] at hf
    cases hf

/-- C9 in a run where every listing holds the one name `Prod` and the names
asked for are `prod`, `live`, `main`: the three IDs are empty, each later call
is made with them, and the run ends only at session start, which fails. -/
theorem unmatched_name_does_not_stop_witness :
    ((∃ rest, (main (listingSDK capitalItems) demoFlags 1).events =
        [.call (.listApplications demoSvc), .print "appID: \n",
          .call (.listEnvironments demoSvc "")] ++ rest) ∧
      (∀ envID,
        getEnvironmentID (listingSDK capitalItems) demoSvc "" demoFlags.environment
          = some (envID, none) →
        ∃ rest, (main (listingSDK capitalItems) demoFlags 1).events =
          [.call (.listApplications demoSvc), .print "appID: \n",
            .call (.listEnvironments demoSvc ""), .print ("envID: " ++ envID ++ "\n"),
            .call (.listConfigurationProfiles demoSvc "")] ++ rest)) ∧
    main (listingSDK capitalItems) demoFlags 1 =
      ⟨[.call (.listApplications demoSvc), .print "appID: \n",
        .call (.listEnvironments demoSvc ""), .print "envID: \n",
        .call (.listConfigurationProfiles demoSvc ""), .print "config-profile-id: ''\n",
        .call (.startConfigurationSession demoData "" "" "")],
        .fatal "err: BadRequestException: bad request"⟩ :=
  ⟨(unmatched_name_does_not_stop (listingSDK capitalItems) demoFlags 1
      (.mk (baseConfig demoFlags)) Config.zero
      ⟨fun _ items h => by
          obtain rfl : capitalItems = items := by simpa [listingSDK] using h
          decide,
        fun _ _ items h => by
          obtain rfl : capitalItems = items := by simpa [listingSDK] using h
          decide,
        fun _ _ items h => by
          obtain rfl : capitalItems = items := by simpa [listingSDK] using h
          decide,
        fun _ _ _ _ h => by simp [listingSDK] at h⟩
      rfl).1 capitalItems rfl
      (by
        intro r hr
        simp only [capitalItems, List.mem_singleton, Option.some.injEq] at hr
        subst hr
        decide),
    rfl⟩

end AppConfigSample
